import Mathlib

/-!
Shallow embedding of the opencode-workspace orchestration scripts.

Each script is modelled as a pure function from the results of its external
effects (process invocations, HTTP probes, prompts) to the ordered trace of
observable events it produces (process spawns, console lines, file writes)
together with its process exit code or return value.  External effects are
parameters: a pull or fetch outcome is an `Except` value supplied by the
environment, indexed by invocation where the order matters.

Sources embedded:
- `scripts/download-models.js` (model downloader)
- `scripts/install-ollama.js` (installer)
- `scripts/start-ollama.js` (service start and stop scripts)
- `scripts/start-ollama.sh` (bash start script and the installed-models
  status reporter bundled in the same file)
-/

namespace DownloadModels

/-- Observable events of `scripts/download-models.js`: process invocations
(`ollama pull`, `ollama list`), spinner success/failure lines, and plain
console output. -/
inductive Ev where
  | execaPull (model : String)
  | execaList
  | succeed (msg : String)
  | fail (msg : String)
  | log (msg : String)
deriving DecidableEq

/-- Outcome tag of one model download, as described by the spec's
`DownloadResult` entity. -/
inductive Outcome where
  | success
  | failure (errorDetail : String)
deriving DecidableEq

/-- The spec's `DownloadResult` record: one model identifier with its
download outcome. -/
structure DownloadResult where
  model : String
  outcome : Outcome
deriving DecidableEq

/-- Spinner line printed by `downloadModel` on success (line 33). -/
def succMsg (model : String) : String :=
  "✓ " ++ model ++ " downloaded successfully"

/-- Spinner line printed by `downloadModel` on failure (line 35). -/
def failMsg (model : String) (e : String) : String :=
  "✗ " ++ model ++ " download failed: " ++ e

/-- `downloadModel` (download-models.js lines 26-38): one `ollama pull`
invocation; on success a spinner success line, on failure a spinner failure
line and the error is rethrown (second component). -/
def downloadModel (model : String) (pullRes : Except String Unit) :
    List Ev × Option String :=
  match pullRes with
  | .ok _ => ([Ev.execaPull model, Ev.succeed (succMsg model)], none)
  | .error e => ([Ev.execaPull model, Ev.fail (failMsg model e)], some e)

/-- Continuation notice printed by `main`'s catch block (line 73). -/
def contMsg : String := "Continuing with next model...\n"

/-- The download loop of `main` (lines 68-75): each item's `downloadModel`
trace; a thrown error is caught, the continuation notice is printed and the
loop proceeds to the next item.  The pull outcome of the j-th remaining item
is `pull j`; the recursive call shifts the oracle. -/
def downloadLoop (sel : List String) (pull : Nat → Except String Unit) : List Ev :=
  match sel with
  | [] => []
  | model :: rest =>
    (match downloadModel model (pull 0) with
     | (evs, none) => evs
     | (evs, some _) => evs ++ [Ev.log contMsg]) ++
      downloadLoop rest (fun j => pull (j + 1))

/-- The inquirer checkbox `validate` callback (lines 52-57): an empty answer
yields the validation-error string, a non-empty one is accepted. -/
def validate (answer : List String) : Except String Bool :=
  if answer.length < 1 then
    Except.error "You must choose at least one model."
  else
    Except.ok true

/-- The two banner lines printed at the top of `main` (lines 41-42). -/
def introEvs : List Ev :=
  [Ev.log "🤖 OpenCode Model Downloader",
   Ev.log "Select the models you want to download:\n"]

/-- The per-run download announcement (line 66). -/
def dlCountEv (n : Nat) : Ev :=
  Ev.log ("\n📥 Downloading " ++ toString n ++ " model(s)...\n")

/-- The closing summary banner (line 77). -/
def completeEv : Ev := Ev.log "\n✅ Download complete. Models available:"

/-- `main` (lines 40-84): banner, empty-selection guard, download loop, then
the closing `ollama list` summary whose own failure is degraded to a warning.
The second component is the function's return value: the source's `main`
returns `undefined` on every path, modelled as `none`. -/
def main (selectedModels : List String) (pull : Nat → Except String Unit)
    (listRes : Except String String) : List Ev × Option (List DownloadResult) :=
  if selectedModels.length = 0 then
    (introEvs ++ [Ev.log "No models selected. Exiting."], none)
  else
    (introEvs
      ++ [dlCountEv selectedModels.length]
      ++ downloadLoop selectedModels pull
      ++ [completeEv]
      ++ (match listRes with
          | .ok stdout => [Ev.execaList, Ev.log stdout]
          | .error _ => [Ev.execaList, Ev.log "Could not list models"]), none)

/-- Modelled from the spec (§4.4): the ordered list of per-item
`DownloadResult` values that the spec says the downloader returns — one entry
per selected model, in selection order, tagged by the pull outcome.  Stated
from the spec's words for comparison with the code's actual return value. -/
def specDownloadResults (sel : List String) (pull : Nat → Except String Unit) :
    List DownloadResult :=
  match sel with
  | [] => []
  | model :: rest =>
    (match pull 0 with
     | .ok _ => ⟨model, Outcome.success⟩
     | .error e => ⟨model, Outcome.failure e⟩) ::
      specDownloadResults rest (fun j => pull (j + 1))

/-- The sequence of models passed to `ollama pull` invocations, in trace
order. -/
def pulls (evs : List Ev) : List String :=
  evs.filterMap fun e =>
    match e with
    | .execaPull m => some m
    | _ => none

/-- Number of `ollama list` invocations in a trace. -/
def listCalls (evs : List Ev) : Nat :=
  evs.countP fun e =>
    match e with
    | .execaList => true
    | _ => false

/-- Number of external-process invocations in a trace. -/
def spawnCount (evs : List Ev) : Nat :=
  evs.countP fun e =>
    match e with
    | .execaPull _ => true
    | .execaList => true
    | _ => false

/-- Per-item outcome lines in trace order: `true` for a spinner success
line, `false` for a spinner failure line. -/
def outcomes (evs : List Ev) : List Bool :=
  evs.filterMap fun e =>
    match e with
    | .succeed _ => some true
    | .fail _ => some false
    | _ => none

/-- Whether a pull outcome is a failure. -/
def pullFailed (r : Except String Unit) : Bool :=
  match r with
  | .ok _ => false
  | .error _ => true

end DownloadModels

namespace InstallOllama

/-- Observable events of `scripts/install-ollama.js`: process invocations
(command and arguments), spinner success/failure lines, plain console
output. -/
inductive Ev where
  | execa (cmd : String) (args : List String)
  | succeed (msg : String)
  | fail (msg : String)
  | log (msg : String)
deriving DecidableEq

/-- Arguments of the Linux install invocation (line 22). -/
def curlArgs : List String := ["-fsSL", "https://ollama.ai/install.sh", "|", "sh"]

/-- Manual-installation guidance printed by the catch block of
`installOllama` (lines 38-42). -/
def guidance : List Ev :=
  [Ev.log "",
   Ev.log "Please install Ollama manually:",
   Ev.log "  macOS: brew install ollama",
   Ev.log "  Linux: curl -fsSL https://ollama.ai/install.sh | sh",
   Ev.log "  Other: Visit https://ollama.ai"]

/-- The catch block of `installOllama` (lines 36-43): spinner failure line
with the error message, then the guidance block; the process exits 1. -/
def catchEvs (e : String) : List Ev :=
  Ev.fail ("Failed to install Ollama: " ++ e) :: guidance

/-- The tail of `installOllama`'s try block after a successful install
invocation (lines 29-34): success line, verification `ollama --version`, and
either the ready line (exit 0) or the catch block (exit 1). -/
def afterInstall (installEv : Ev) (verRes : Except String String) : List Ev × Nat :=
  match verRes with
  | .ok v =>
    ([installEv, Ev.succeed "Ollama installed successfully",
      Ev.execa "ollama" ["--version"],
      Ev.succeed ("Ollama " ++ v ++ " is ready")], 0)
  | .error e =>
    (installEv :: Ev.succeed "Ollama installed successfully"
      :: Ev.execa "ollama" ["--version"] :: catchEvs e, 1)

/-- `installOllama` (install-ollama.js lines 8-45): platform branch invoking
Homebrew on darwin, the official script on linux, and throwing an
unsupported-platform error otherwise; every thrown error lands in the catch
block which prints manual guidance and exits 1. -/
def installOllama (platform : String) (brewRes curlRes : Except String Unit)
    (verRes : Except String String) : List Ev × Nat :=
  if platform = "darwin" then
    match brewRes with
    | .ok _ => afterInstall (Ev.execa "brew" ["install", "ollama"]) verRes
    | .error e => (Ev.execa "brew" ["install", "ollama"] :: catchEvs e, 1)
  else if platform = "linux" then
    match curlRes with
    | .ok _ => afterInstall (Ev.execa "curl" curlArgs) verRes
    | .error e => (Ev.execa "curl" curlArgs :: catchEvs e, 1)
  else
    (catchEvs ("Unsupported platform: " ++ platform
      ++ ". Please install Ollama manually from https://ollama.ai"), 1)

/-- `main` (install-ollama.js lines 47-61): banner, then the initial
`ollama --version` check; if it succeeds the script reports the installed
version and returns (exit 0) without calling `installOllama`; otherwise it
proceeds to `installOllama`. -/
def main (verCheck : Except String String) (platform : String)
    (brewRes curlRes : Except String Unit) (verAfter : Except String String) :
    List Ev × Nat :=
  let intro := [Ev.log "🔧 Ollama Installation",
                Ev.log "This will install Ollama on your system.\n"]
  match verCheck with
  | .ok v =>
    (intro ++ [Ev.execa "ollama" ["--version"],
      Ev.log ("✓ Ollama is already installed (" ++ v ++ ")")], 0)
  | .error _ =>
    let r := installOllama platform brewRes curlRes verAfter
    (intro ++ Ev.execa "ollama" ["--version"] :: r.1, r.2)

/-- Whether an event is a package-manager install invocation (Homebrew or
the curl install script). -/
def isInstallCall (e : Ev) : Bool :=
  match e with
  | .execa "brew" _ => true
  | .execa "curl" _ => true
  | _ => false

/-- Number of package-manager install invocations in a trace. -/
def installCalls (evs : List Ev) : Nat :=
  evs.countP isInstallCall

end InstallOllama

namespace HealthCheck

/-- The options object passed to a `fetch` call; the only field any probe in
this repository sets is `timeout`. -/
structure FetchOptions where
  timeout : Option Nat
deriving DecidableEq

/-- start-ollama.js line 21: the after-start health probe calls
`fetch` on the fixed endpoint with no options at all. -/
def startProbeOptions : FetchOptions := ⟨none⟩

/-- The stop script's verification probe (start-ollama.js second document,
line 62): `fetch` on the fixed endpoint with a `timeout` field of 1000 ms. -/
def stopVerifyOptions : FetchOptions := ⟨some 1000⟩

/-- All health-probe call sites of the service controller scripts. -/
def probeSites : List FetchOptions := [startProbeOptions, stopVerifyOptions]

/-- An HTTP response, reduced to the status code the scripts inspect. -/
structure Response where
  status : Nat
deriving DecidableEq

/-- The JS `Response.ok` accessor: status in 200-299. -/
def respOk (r : Response) : Bool :=
  decide (200 ≤ r.status) && decide (r.status ≤ 299)

/-- Result of a health probe. -/
inductive Readiness where
  | ready
  | notReady
deriving DecidableEq

/-- The start script's health-check decision (start-ollama.js lines 20-31,
the only probe site that inspects the response): a response with `ok`
status is ready; a non-ok response or a thrown fetch error is not-ready.
Total by construction: a thrown error is an input, never an output. -/
def classify (res : Except String Response) : Readiness :=
  match res with
  | .ok r => if respOk r then Readiness.ready else Readiness.notReady
  | .error _ => Readiness.notReady

/-- The stop script's verification decision (start-ollama.js second
document, lines 60-67): it performs no status check at all — any resolved
fetch, whatever its status, means the service still answers (ready), and
only a thrown fetch counts as stopped (not-ready). -/
def stopVerifyClassify (res : Except String Response) : Readiness :=
  match res with
  | .ok _ => Readiness.ready
  | .error _ => Readiness.notReady

end HealthCheck

namespace StartOllama

/-- Observable events of the Node start script (first document of
start-ollama.js): the detached `ollama serve` spawn, the single health
probe, spinner lines, and file operations (the alphabet includes file
writes and deletions so their absence in a trace is an observation). -/
inductive Ev where
  | execaServe
  | fetchProbe
  | fileWrite (path : String)
  | fileDelete (path : String)
  | succeed (msg : String)
  | fail (msg : String)
deriving DecidableEq

/-- The Node start script (start-ollama.js lines 9-36): spawn `ollama serve`
detached, wait the settle interval, probe the endpoint once; a 2xx response
reports success (exit 0), anything else reports failure (exit 1). -/
def startMain (spawnRes : Except String Unit)
    (probe : Except String HealthCheck.Response) : List Ev × Nat :=
  match spawnRes with
  | .error e => ([Ev.execaServe, Ev.fail ("Failed to start Ollama: " ++ e)], 1)
  | .ok _ =>
    match probe with
    | .ok r =>
      if HealthCheck.respOk r then
        ([Ev.execaServe, Ev.fetchProbe, Ev.succeed "Ollama service is ready"], 0)
      else
        ([Ev.execaServe, Ev.fetchProbe,
          Ev.fail "Ollama service failed to respond"], 1)
    | .error _ =>
      ([Ev.execaServe, Ev.fetchProbe,
        Ev.fail "Failed to connect to Ollama service"], 1)

/-- Paths written by a trace of the Node start script. -/
def fileWrites (evs : List Ev) : List String :=
  evs.filterMap fun e =>
    match e with
    | .fileWrite p => some p
    | _ => none

/-- Observable events of the bash start script (first document of
start-ollama.sh). -/
inductive ShEv where
  | serveBackground (logPath : String)
  | fileWrite (path : String)
  | fileDelete (path : String)
  | echo (msg : String)
  | curlProbe
deriving DecidableEq

/-- start-ollama.sh lines 3-9: start `ollama serve` in the background with
output redirected to the service log, write the child PID to
`logs/ollama.pid`, sleep, then probe once with curl. -/
def shStart (pid : Nat) (curlOk : Bool) : List ShEv :=
  [ShEv.echo "Starting Ollama service...",
   ShEv.serveBackground "logs/ollama-service.log",
   ShEv.fileWrite "logs/ollama.pid",
   ShEv.echo ("Ollama service started with PID " ++ toString pid),
   ShEv.echo "Waiting for service to be ready...",
   ShEv.curlProbe,
   if curlOk then ShEv.echo "Ollama service is ready"
   else ShEv.echo "Failed to connect to Ollama"]

end StartOllama

namespace StopOllama

/-- The JS `String.prototype.includes` membership test: does `needle` occur
contiguously anywhere in `hay`? -/
def includes (hay needle : List Char) : Bool :=
  needle.isPrefixOf hay ||
    match hay with
    | [] => false
    | _ :: rest => includes rest needle

/-- Observable events of the stop script (second document of
start-ollama.js): the `ps aux` scan, the `pkill` termination signal, the
verification fetch, spinner lines, and file operations (present in the
alphabet so their absence is an observation). -/
inductive Ev where
  | execaPs
  | execaPkill (args : List String)
  | fetchVerify
  | fileDelete (path : String)
  | info (msg : String)
  | succeed (msg : String)
  | fail (msg : String)
deriving DecidableEq

/-- The command-line substring the stop script scans the process table
for. -/
def serveNeedle : List Char := String.toList "ollama serve"

/-- The stop script (start-ollama.js second document, lines 44-72): scan
`ps aux` for `ollama serve`; if absent report not-running and exit 0;
otherwise `pkill -f`, wait, and verify with a fetch — a resolving fetch
means the service still answers (exit 1), a thrown fetch means it stopped
(exit 0).  A failure of `ps` or `pkill` lands in the outer catch (exit 1). -/
def stopMain (psRes : Except String (List Char)) (pkillRes : Except String Unit)
    (verify : Except String Unit) : List Ev × Nat :=
  match psRes with
  | .error e => ([Ev.execaPs, Ev.fail ("Failed to stop Ollama: " ++ e)], 1)
  | .ok psOutput =>
    if includes psOutput serveNeedle then
      match pkillRes with
      | .error e =>
        ([Ev.execaPs, Ev.execaPkill ["-f", "ollama serve"],
          Ev.fail ("Failed to stop Ollama: " ++ e)], 1)
      | .ok _ =>
        match verify with
        | .ok _ =>
          ([Ev.execaPs, Ev.execaPkill ["-f", "ollama serve"], Ev.fetchVerify,
            Ev.fail "Ollama service is still running"], 1)
        | .error _ =>
          ([Ev.execaPs, Ev.execaPkill ["-f", "ollama serve"], Ev.fetchVerify,
            Ev.succeed "Ollama service stopped successfully"], 0)
    else
      ([Ev.execaPs, Ev.info "Ollama service is not running"], 0)

/-- Number of termination signals (`pkill` invocations) in a trace. -/
def killSignals (evs : List Ev) : Nat :=
  evs.countP fun e =>
    match e with
    | .execaPkill _ => true
    | _ => false

/-- Paths deleted by a trace of the stop script. -/
def fileDeletes (evs : List Ev) : List String :=
  evs.filterMap fun e =>
    match e with
    | .fileDelete p => some p
    | _ => none

end StopOllama

namespace CheckModels

/-- Observable events of the installed-models status reporter (second
document of start-ollama.sh): the `ollama list` invocation, stdout lines,
and stderr lines. -/
inductive Ev where
  | execaList
  | log (msg : String)
  | err (msg : String)
deriving DecidableEq

/-- Model count derived from `ollama list` output (lines 31-32): number of
lines of the trimmed output minus the header line. -/
def countModels (stdout : String) : Nat :=
  (stdout.trim.splitOn "\n").length - 1

/-- `checkInstalledModels` (start-ollama.sh second document, lines 15-40):
run `ollama list`; report no-models for empty output, otherwise print the
listing and the model count (exit 0); a failing list call prints an error
and exits 1. -/
def checkInstalledModels (listRes : Except String String) : List Ev × Nat :=
  let intro := [Ev.log "📋 Checking installed Ollama models...\n"]
  match listRes with
  | .error e =>
    (intro ++ [Ev.execaList,
      Ev.err ("Failed to check installed models: " ++ e),
      Ev.log "Make sure Ollama is installed and accessible."], 1)
  | .ok stdout =>
    if stdout.trim = "" then
      (intro ++ [Ev.execaList, Ev.log "No models installed.",
        Ev.log "Run `npm run download:models` to install some models."], 0)
    else
      (intro ++ [Ev.execaList, Ev.log "Installed models:", Ev.log stdout,
        Ev.log ("\nTotal: " ++ toString (countModels stdout)
          ++ " model(s) installed")], 0)

end CheckModels

namespace DownloadModels

theorem pulls_append (a b : List Ev) : pulls (a ++ b) = pulls a ++ pulls b := by
  simp [pulls]

theorem outcomes_append (a b : List Ev) :
    outcomes (a ++ b) = outcomes a ++ outcomes b := by
  simp [outcomes]

theorem listCalls_append (a b : List Ev) :
    listCalls (a ++ b) = listCalls a + listCalls b := by
  simp [listCalls, List.countP_append]

theorem pulls_downloadLoop (sel : List String) :
    ∀ pull, pulls (downloadLoop sel pull) = sel := by
  induction sel with
  | nil => intro pull; rfl
  | cons m rest ih =>
    intro pull
    cases h : pull 0 with
    | ok u =>
      simp only [downloadLoop, downloadModel, h, pulls_append, ih]
      rfl
    | error e =>
      simp only [downloadLoop, downloadModel, h, pulls_append, ih]
      rfl

theorem outcomes_downloadLoop (sel : List String) :
    ∀ pull, outcomes (downloadLoop sel pull) =
      (List.range sel.length).map fun j => !pullFailed (pull j) := by
  induction sel with
  | nil => intro pull; rfl
  | cons m rest ih =>
    intro pull
    rw [List.length_cons, List.range_succ_eq_map, List.map_cons, List.map_map]
    cases h : pull 0 with
    | ok u =>
      simp only [downloadLoop, downloadModel, h, outcomes_append, ih]
      rfl
    | error e =>
      simp only [downloadLoop, downloadModel, h, outcomes_append, ih]
      rfl

theorem outcomes_eq_specResults (sel : List String) :
    ∀ pull, outcomes (downloadLoop sel pull) =
      (specDownloadResults sel pull).map fun r =>
        decide (r.outcome = Outcome.success) := by
  induction sel with
  | nil => intro pull; rfl
  | cons m rest ih =>
    intro pull
    cases h : pull 0 with
    | ok u =>
      simp only [downloadLoop, downloadModel, specDownloadResults, h,
        outcomes_append, ih, List.map_cons]
      rfl
    | error e =>
      simp only [downloadLoop, downloadModel, specDownloadResults, h,
        outcomes_append, ih, List.map_cons]
      rfl

theorem listCalls_downloadLoop (sel : List String) :
    ∀ pull, listCalls (downloadLoop sel pull) = 0 := by
  induction sel with
  | nil => intro pull; rfl
  | cons m rest ih =>
    intro pull
    cases h : pull 0 with
    | ok u =>
      simp only [downloadLoop, downloadModel, h, listCalls_append, ih]
      rfl
    | error e =>
      simp only [downloadLoop, downloadModel, h, listCalls_append, ih]
      rfl

theorem main_trace_nonEmpty (sel : List String) (pull : Nat → Except String Unit)
    (listRes : Except String String) (h : ¬ sel.length = 0) :
    (main sel pull listRes).1 =
      (introEvs
        ++ [dlCountEv sel.length]
        ++ downloadLoop sel pull
        ++ [completeEv]
        ++ (match listRes with
            | .ok stdout => [Ev.execaList, Ev.log stdout]
            | .error _ => [Ev.execaList, Ev.log "Could not list models"])) := by
  simp only [main, if_neg h]

theorem pulls_main (sel : List String) (pull : Nat → Except String Unit)
    (listRes : Except String String) (h : ¬ sel.length = 0) :
    pulls (main sel pull listRes).1 = sel := by
  rw [main_trace_nonEmpty sel pull listRes h]
  cases listRes <;>
    simp only [pulls_append, pulls_downloadLoop] <;>
    simp [pulls, introEvs, dlCountEv, completeEv]

theorem outcomes_main (sel : List String) (pull : Nat → Except String Unit)
    (listRes : Except String String) (h : ¬ sel.length = 0) :
    outcomes (main sel pull listRes).1 = outcomes (downloadLoop sel pull) := by
  rw [main_trace_nonEmpty sel pull listRes h]
  cases listRes <;>
    simp [outcomes_append, outcomes, introEvs, dlCountEv, completeEv]

/-- Claim C1: over a non-empty selection in which exactly the i-th pull
fails, `main` invokes `ollama pull` exactly once per selected model, in
selection order (so no early termination: every selected model is pulled),
and the per-item outcome lines record a failure only at index i. -/
theorem download_single_failure_isolated
    (sel : List String) (pull : Nat → Except String Unit)
    (listRes : Except String String) (i : Nat) (hi : i < sel.length)
    (hfail : ∀ j, j < sel.length → pullFailed (pull j) = decide (j = i)) :
    pulls (main sel pull listRes).1 = sel ∧
    outcomes (main sel pull listRes).1 =
      (List.range sel.length).map fun j => decide (j ≠ i) := by
  have hne : ¬ sel.length = 0 := by omega
  refine ⟨pulls_main sel pull listRes hne, ?_⟩
  rw [outcomes_main sel pull listRes hne, outcomes_downloadLoop]
  refine List.map_congr_left ?_
  intro j hj
  rw [List.mem_range] at hj
  rw [hfail j hj]
  simp [decide_not]

/-- Witness for C1: selection m1, m2, m3 with only the second pull failing
(the spec's §8 scenario). -/
theorem download_single_failure_isolated_witness :
    pulls (main ["m1", "m2", "m3"]
        (fun j => if j = 1 then Except.error "network error" else Except.ok ())
        (Except.ok "")).1 = ["m1", "m2", "m3"] ∧
    outcomes (main ["m1", "m2", "m3"]
        (fun j => if j = 1 then Except.error "network error" else Except.ok ())
        (Except.ok "")).1 = (List.range 3).map fun j => decide (j ≠ 1) :=
  download_single_failure_isolated ["m1", "m2", "m3"]
    (fun j => if j = 1 then Except.error "network error" else Except.ok ())
    (Except.ok "") 1 (by decide)
    (by intro j hj; simp only [List.length_cons, List.length_nil] at hj
        interval_cases j <;> rfl)

/-- Claim C2 counterexample: at the concrete one-model selection with a
succeeding pull, `main`'s return value is `none` (the source's `main`
returns `undefined`), not the ordered `DownloadResult` list the claim says
it returns. -/
theorem download_return_counterexample :
    (main ["m1"] (fun _ => Except.ok ()) (Except.ok "")).2 ≠
      some (specDownloadResults ["m1"] (fun _ => Except.ok ())) := by
  simp [main]

/-- Claim C2 amended: the downloader's final return value is `undefined`
(`none`) on every run — it does not return the result list; instead the
ordered per-item outcomes are emitted to the console, one success-or-failure
spinner line per selected model in selection order, agreeing with the
spec-described `DownloadResult` list. -/
theorem download_return_amended
    (sel : List String) (pull : Nat → Except String Unit)
    (listRes : Except String String) :
    (main sel pull listRes).2 = none ∧
    outcomes (main sel pull listRes).1 =
      (specDownloadResults sel pull).map fun r =>
        decide (r.outcome = Outcome.success) := by
  constructor
  · by_cases h : sel.length = 0 <;> simp [main, h]
  · by_cases h : sel.length = 0
    · have hsel : sel = [] := List.length_eq_zero.mp h
      subst hsel
      rfl
    · rw [outcomes_main sel pull listRes h, outcomes_eq_specResults]

/-- Claim C3: an empty selection is rejected by the prompt's validate
callback with the validation-error message, and the empty-selection path of
`main` performs zero pull invocations and zero process spawns of any kind —
it prints the exit notice and returns. -/
theorem download_empty_selection (pull : Nat → Except String Unit)
    (listRes : Except String String) :
    validate [] = Except.error "You must choose at least one model." ∧
    pulls (main [] pull listRes).1 = [] ∧
    spawnCount (main [] pull listRes).1 = 0 ∧
    (main [] pull listRes).1 =
      introEvs ++ [Ev.log "No models selected. Exiting."] :=
  ⟨rfl, rfl, rfl, rfl⟩

/-- Claim C4: over any non-empty selection and any per-item outcomes, the
`ollama list` summary call appears exactly once in the trace, strictly
after every pull invocation; and when the list call itself fails the trace
ends with the warning line while `main` still completes normally with its
usual return value. -/
theorem download_listing_once_advisory (m : String) (rest : List String)
    (pull : Nat → Except String Unit) (listRes : Except String String)
    (err : String) :
    listCalls (main (m :: rest) pull listRes).1 = 1 ∧
    (∃ a b, (main (m :: rest) pull listRes).1 = a ++ Ev.execaList :: b ∧
      pulls a = m :: rest ∧ pulls b = []) ∧
    (∃ a, (main (m :: rest) pull (Except.error err)).1 =
        a ++ [Ev.execaList, Ev.log "Could not list models"] ∧
      (main (m :: rest) pull (Except.error err)).2 = none) := by
  have hne : ¬ (m :: rest).length = 0 := by simp
  refine ⟨?_, ?_, ?_⟩
  · rw [main_trace_nonEmpty _ _ _ hne]
    cases listRes <;>
      simp only [listCalls_append, listCalls_downloadLoop] <;>
      simp [listCalls, introEvs, dlCountEv, completeEv]
  · rw [main_trace_nonEmpty _ _ _ hne]
    cases listRes with
    | ok s =>
      refine ⟨introEvs ++ [dlCountEv (m :: rest).length]
          ++ downloadLoop (m :: rest) pull ++ [completeEv], [Ev.log s],
        rfl, ?_, rfl⟩
      simp only [pulls_append, pulls_downloadLoop]
      simp [pulls, introEvs, dlCountEv, completeEv]
    | error e =>
      refine ⟨introEvs ++ [dlCountEv (m :: rest).length]
          ++ downloadLoop (m :: rest) pull ++ [completeEv],
        [Ev.log "Could not list models"], rfl, ?_, rfl⟩
      simp only [pulls_append, pulls_downloadLoop]
      simp [pulls, introEvs, dlCountEv, completeEv]
  · refine ⟨introEvs ++ [dlCountEv (m :: rest).length]
        ++ downloadLoop (m :: rest) pull ++ [completeEv], ?_, ?_⟩
    · rw [main_trace_nonEmpty _ _ _ hne]
    · simp [main]

end DownloadModels

namespace InstallOllama

/-- Claim C5: when the initial `ollama --version` check succeeds, the
installer performs zero package-manager install invocations, reports the
already-installed message, and exits 0 — whatever the platform and whatever
the install oracles would have answered. -/
theorem install_already_installed_noop (v platform : String)
    (brewRes curlRes : Except String Unit) (verAfter : Except String String) :
    installCalls (main (Except.ok v) platform brewRes curlRes verAfter).1 = 0 ∧
    (main (Except.ok v) platform brewRes curlRes verAfter).2 = 0 ∧
    Ev.log ("✓ Ollama is already installed (" ++ v ++ ")") ∈
      (main (Except.ok v) platform brewRes curlRes verAfter).1 := by
  refine ⟨rfl, rfl, ?_⟩
  simp [main]

/-- Claim C10: on a host platform other than darwin and linux, with the
binary not already present, the installer performs zero package-manager
install invocations, prints the manual-installation guidance, and exits 1. -/
theorem install_unsupported_platform (platform e : String)
    (brewRes curlRes : Except String Unit) (verAfter : Except String String)
    (hd : platform ≠ "darwin") (hl : platform ≠ "linux") :
    installCalls (main (Except.error e) platform brewRes curlRes verAfter).1 = 0 ∧
    (main (Except.error e) platform brewRes curlRes verAfter).2 = 1 ∧
    Ev.log "Please install Ollama manually:" ∈
      (main (Except.error e) platform brewRes curlRes verAfter).1 := by
  have h1 : installOllama platform brewRes curlRes verAfter =
      (catchEvs ("Unsupported platform: " ++ platform
        ++ ". Please install Ollama manually from https://ollama.ai"), 1) := by
    simp only [installOllama, if_neg hd, if_neg hl]
  simp only [main, h1]
  simp [catchEvs, guidance]
  rfl

/-- Witness for C10: platform win32 with the binary absent. -/
theorem install_unsupported_platform_witness :
    installCalls (main (Except.error "not found") "win32"
      (Except.ok ()) (Except.ok ()) (Except.ok "0.1")).1 = 0 ∧
    (main (Except.error "not found") "win32"
      (Except.ok ()) (Except.ok ()) (Except.ok "0.1")).2 = 1 ∧
    Ev.log "Please install Ollama manually:" ∈
      (main (Except.error "not found") "win32"
        (Except.ok ()) (Except.ok ()) (Except.ok "0.1")).1 :=
  install_unsupported_platform "win32" "not found"
    (Except.ok ()) (Except.ok ()) (Except.ok "0.1") (by decide) (by decide)

end InstallOllama

namespace HealthCheck

/-- Claim C6 counterexample: at the stop-verification probe site — one of
the claim's probes of the fixed endpoint — a resolved non-2xx response
(status 500) is classified as the service still answering (ready), not as
not-ready as the claim requires for every non-2xx status; and the start
probe's fetch configures no timeout at all, so neither does the claimed
completion within a configured (≤2s) timeout hold there. -/
theorem health_check_counterexample :
    stopVerifyClassify (Except.ok ⟨500⟩) = Readiness.ready ∧
    stopVerifyOptions ∈ probeSites ∧
    startProbeOptions.timeout = none :=
  ⟨rfl, by simp [probeSites], rfl⟩

/-- Claim C6 amended: both probe sites decide by a total branch structure
and never raise to the caller.  The start-script probe yields ready exactly
for a 2xx response and not-ready for any thrown error or non-2xx status;
the stop-verification probe performs no status check — any resolved
response, non-2xx included, counts as the service still answering (ready),
and only a thrown fetch counts as stopped.  Only the stop-verification
fetch configures a timeout (1000 ms, within 2 s); the start probe
configures none. -/
theorem health_check_amended (res : Except String Response) :
    (classify res = Readiness.ready ↔
      ∃ r, res = Except.ok r ∧ 200 ≤ r.status ∧ r.status ≤ 299) ∧
    (stopVerifyClassify res = Readiness.ready ↔ ∃ r, res = Except.ok r) ∧
    stopVerifyOptions.timeout = some 1000 ∧
    startProbeOptions.timeout = none := by
  refine ⟨?_, ?_, rfl, rfl⟩
  · cases res with
    | error e => simp [classify]
    | ok r =>
      by_cases hb : respOk r
      · have hs : 200 ≤ r.status ∧ r.status ≤ 299 := by simpa [respOk] using hb
        simp only [classify, if_pos hb]
        constructor
        · intro _
          exact ⟨r, rfl, hs.1, hs.2⟩
        · intro _
          trivial
      · have hs : ¬ (200 ≤ r.status ∧ r.status ≤ 299) := by simpa [respOk] using hb
        simp only [classify, if_neg hb]
        constructor
        · intro h
          exact Readiness.noConfusion h
        · rintro ⟨r2, hr2, h1, h2⟩
          obtain rfl : r = r2 := by injection hr2
          exact absurd ⟨h1, h2⟩ hs
  · cases res with
    | error e =>
      constructor
      · intro h
        exact Readiness.noConfusion h
      · rintro ⟨r2, hr2⟩
        exact Except.noConfusion hr2
    | ok r =>
      exact ⟨fun _ => ⟨r, rfl⟩, fun _ => rfl⟩

end HealthCheck

namespace StopOllama

/-- Claim C7: when the process-table scan does not find `ollama serve` (the
stop script consults nothing else — in particular no PID file — so no
running service process is found at all), the stop script reports the
not-running notice as a success with exit code 0 and sends zero termination
signals. -/
theorem stop_already_stopped (psOutput : List Char)
    (pkillRes verify : Except String Unit)
    (h : includes psOutput serveNeedle = false) :
    (stopMain (Except.ok psOutput) pkillRes verify).2 = 0 ∧
    killSignals (stopMain (Except.ok psOutput) pkillRes verify).1 = 0 ∧
    Ev.info "Ollama service is not running" ∈
      (stopMain (Except.ok psOutput) pkillRes verify).1 := by
  have ht : stopMain (Except.ok psOutput) pkillRes verify =
      ([Ev.execaPs, Ev.info "Ollama service is not running"], 0) := by
    simp [stopMain, h]
  rw [ht]
  exact ⟨rfl, rfl, by simp⟩

/-- Witness for C7: a process table that does not mention `ollama serve`. -/
theorem stop_already_stopped_witness :
    (stopMain (Except.ok (String.toList "root 1 /sbin/init"))
      (Except.ok ()) (Except.ok ())).2 = 0 ∧
    killSignals (stopMain (Except.ok (String.toList "root 1 /sbin/init"))
      (Except.ok ()) (Except.ok ())).1 = 0 ∧
    Ev.info "Ollama service is not running" ∈
      (stopMain (Except.ok (String.toList "root 1 /sbin/init"))
        (Except.ok ()) (Except.ok ())).1 :=
  stop_already_stopped (String.toList "root 1 /sbin/init")
    (Except.ok ()) (Except.ok ()) (by decide)

end StopOllama

namespace StartOllama

/-- Claim C8 counterexample: a successful Node service start (exit 0)
performs no file write at all — it records no PID — and a clean stop (exit
0, success line) performs no file deletion, so neither half of the claimed
PID-file lifecycle happens in these scripts. -/
theorem pid_lifecycle_counterexample :
    (startMain (Except.ok ()) (Except.ok ⟨200⟩)).2 = 0 ∧
    fileWrites (startMain (Except.ok ()) (Except.ok ⟨200⟩)).1 = [] ∧
    (StopOllama.stopMain (Except.ok (String.toList "user 42 ollama serve"))
      (Except.ok ()) (Except.error "connection refused")).2 = 0 ∧
    StopOllama.fileDeletes (StopOllama.stopMain
      (Except.ok (String.toList "user 42 ollama serve"))
      (Except.ok ()) (Except.error "connection refused")).1 = [] := by
  refine ⟨rfl, rfl, ?_, ?_⟩ <;> decide

/-- Claim C8 amended: only the bash start script records the spawned PID,
writing it to logs/ollama.pid; the Node start script performs no file write
on any path, and the stop script performs no file deletion on any path — in
particular no clean stop deletes the PID file, so the PID file does not
track the service lifetime. -/
theorem pid_lifecycle_amended (pid : Nat) (curlOk : Bool)
    (spawnRes : Except String Unit) (probe : Except String HealthCheck.Response)
    (psRes : Except String (List Char)) (pkillRes verify : Except String Unit) :
    ShEv.fileWrite "logs/ollama.pid" ∈ shStart pid curlOk ∧
    fileWrites (startMain spawnRes probe).1 = [] ∧
    StopOllama.fileDeletes (StopOllama.stopMain psRes pkillRes verify).1 = [] := by
  refine ⟨by simp [shStart], ?_, ?_⟩
  · cases spawnRes with
    | error e => rfl
    | ok u =>
      cases probe with
      | error e => rfl
      | ok r =>
        by_cases hb : HealthCheck.respOk r <;>
          simp [startMain, fileWrites, hb]
  · cases psRes with
    | error e => rfl
    | ok l =>
      by_cases hb : StopOllama.includes l StopOllama.serveNeedle
      · cases pkillRes with
        | error e => simp [StopOllama.stopMain, StopOllama.fileDeletes, hb]
        | ok u =>
          cases verify <;>
            simp [StopOllama.stopMain, StopOllama.fileDeletes, hb]
      · simp [StopOllama.stopMain, StopOllama.fileDeletes, hb]

end StartOllama

namespace CheckModels

/-- Claim C9 counterexample: at a concrete failing `ollama list` call the
status reporter terminates with process exit code 1 — the sub-check's
failure is not mapped to a report entry of a normally-terminating report. -/
theorem status_reporter_exit_counterexample :
    (checkInstalledModels (Except.error "connect ECONNREFUSED")).2 = 1 := rfl

/-- Claim C9 amended: on every successful `ollama list` call (empty listing
or not) the status reporter prints its report and exits 0; but a failing
list call is printed as an error and terminates the process with exit code
1 rather than being mapped to a report entry. -/
theorem status_reporter_amended (s e : String) :
    (checkInstalledModels (Except.ok s)).2 = 0 ∧
    (checkInstalledModels (Except.error e)).2 = 1 ∧
    Ev.err ("Failed to check installed models: " ++ e) ∈
      (checkInstalledModels (Except.error e)).1 := by
  refine ⟨?_, rfl, by simp [checkInstalledModels]⟩
  by_cases h : s.trim = "" <;> simp [checkInstalledModels, h]

end CheckModels
